import Mathlib

/-!
Verification development for the movie-browser-api scraping services.

The TypeScript sources embedded here are
`src/services/scraping/googleKnowledgePanelScraper.ts` and
`src/services/scraping/ratingsScraper.ts`.  DOM access (cheerio /
puppeteer selector queries) is modelled by page structures whose fields
hold exactly the data the selectors would return; every computation the
source performs on that data is translated function by function.
JavaScript numbers that can be `NaN` are modelled by `JsNumber`;
`null`/`undefined` by `Option`; JS string truthiness by emptiness tests.
-/

namespace MovieBrowser

/-- Model of a JavaScript `number` that may be `NaN` (finite values only;
the scrapers never produce infinities from the parsing primitives on the
inputs they treat). -/
inductive JsNumber where
  | nan : JsNumber
  | num (q : ℚ) : JsNumber
deriving DecidableEq, Repr

/-- JS truthiness of a `string | null | undefined` value: truthy iff
present and non-empty. -/
def optTruthy : Option String → Bool
  | none => false
  | some s => s ≠ ""

/-- Numeric value of a list of decimal digit characters. -/
def digitsVal (cs : List Char) : ℕ :=
  cs.foldl (fun a c => a * 10 + (c.toNat - 48)) 0

/-- The rational `n`, built through `mkRat` so that concrete values
reduce inside the kernel. -/
def jsInt (n : ℤ) : ℚ := mkRat n 1

/-- Exact product of two rationals, computed through `mkRat` (the
library's `Rat.mul` is irreducible, which would block evaluation in
proofs; `mkRat` normalizes, so the value is the same). -/
def qMul (a b : ℚ) : ℚ := mkRat (a.num * b.num) (a.den * b.den)

/-- Exact sum of two rationals, computed through `mkRat`. -/
def qAdd (a b : ℚ) : ℚ := mkRat (a.num * (b.den : ℤ) + b.num * (a.den : ℤ)) (a.den * b.den)

/-- Floor of a rational, computed by flooring integer division. -/
def qFloor (a : ℚ) : ℤ := a.num.fdiv (a.den : ℤ)

/-- Sign prefix handling shared by the JS numeric parsers: strips one
leading `+`/`-` and reports whether the sign was negative. -/
def readSign : List Char → Bool × List Char
  | '-' :: r => (true, r)
  | '+' :: r => (false, r)
  | cs => (false, cs)

/-- Model of the JS builtin `parseFloat`: skip leading whitespace, read an
optional sign, a decimal significand and an optional exponent, returning
`NaN` when no digit is found.  (`Infinity` literals are not modelled; no
scraper input path produces them.) -/
def jsParseFloat (s : String) : JsNumber :=
  let cs := s.toList.dropWhile Char.isWhitespace
  let (neg, cs) := readSign cs
  let (intPart, cs) := cs.span Char.isDigit
  let (fracPart, cs) :=
    match cs with
    | '.' :: r => r.span Char.isDigit
    | _ => ([], cs)
  if intPart.isEmpty && fracPart.isEmpty then JsNumber.nan
  else
    let fl := fracPart.length
    let baseNum : ℤ := (digitsVal intPart * 10 ^ fl + digitsVal fracPart : ℕ)
    let (eNeg, eMag) : Bool × ℕ :=
      match cs with
      | 'e' :: r | 'E' :: r =>
        let (es, r) := readSign r
        let (eds, _) := r.span Char.isDigit
        if eds.isEmpty then (false, 0) else (es, digitsVal eds)
      | _ => (false, 0)
    let q :=
      if eNeg then mkRat baseNum (10 ^ fl * 10 ^ eMag)
      else mkRat (baseNum * 10 ^ eMag) (10 ^ fl)
    JsNumber.num (if neg then Rat.neg q else q)

/-- Model of the JS builtin `parseInt(s, 10)`: skip leading whitespace,
read an optional sign and the longest run of decimal digits, `NaN` when
there is none. -/
def jsParseInt10 (s : String) : JsNumber :=
  let cs := s.toList.dropWhile Char.isWhitespace
  let (neg, cs) := readSign cs
  let (ds, _) := cs.span Char.isDigit
  if ds.isEmpty then JsNumber.nan
  else JsNumber.num (if neg then Rat.neg (jsInt (digitsVal ds)) else jsInt (digitsVal ds))

/-- Model of the JS builtin `Math.round`: round half toward positive
infinity. -/
def jsRound (q : ℚ) : ℚ := jsInt (qFloor (qAdd q (mkRat 1 2)))

/-- Does `cs` contain `pat` as a contiguous sublist? -/
def listContainsSub (pat : List Char) : List Char → Bool
  | [] => pat.isEmpty
  | c :: rest => pat.isPrefixOf (c :: rest) || listContainsSub pat rest

/-- Model of JS `s.includes(pat)`. -/
def jsIncludes (s pat : String) : Bool :=
  listContainsSub pat.toList s.toList

/-- Replace the first occurrence of `pat` in the character list by `repl`,
as JS `String.replace` does with a string pattern. -/
def replaceFirstList (pat repl : List Char) : List Char → List Char
  | [] => []
  | c :: rest =>
    if pat.isPrefixOf (c :: rest) then repl ++ (c :: rest).drop pat.length
    else c :: replaceFirstList pat repl rest

/-- Model of JS `s.replace(pat, repl)` with a plain-string pattern: only
the first occurrence is replaced. -/
def jsReplaceFirst (s pat repl : String) : String :=
  ⟨replaceFirstList pat.toList repl.toList s.toList⟩

/-- ASCII model of JS `toLowerCase` on one character (the scraped texts
the claims concern are ASCII; other characters pass through). -/
def asciiLowerChar (c : Char) : Char :=
  if 'A' ≤ c ∧ c ≤ 'Z' then Char.ofNat (c.toNat + 32) else c

/-- ASCII model of JS `toUpperCase` on one character. -/
def asciiUpperChar (c : Char) : Char :=
  if 'a' ≤ c ∧ c ≤ 'z' then Char.ofNat (c.toNat - 32) else c

/-- Model of JS `s.toLowerCase()`. -/
def jsToLower (s : String) : String := ⟨s.toList.map asciiLowerChar⟩

/-- Model of JS `s.toUpperCase()`. -/
def jsToUpper (s : String) : String := ⟨s.toList.map asciiUpperChar⟩

/-- Suffix test on strings, by character list (used by the claim-side
specifications that speak about suffixes). -/
def jsEndsWith (s suf : String) : Bool := suf.toList.isSuffixOf s.toList

/-- Model of JS `s.trim()`: strip whitespace from both ends. -/
def jsTrim (s : String) : String :=
  ⟨((s.toList.dropWhile Char.isWhitespace).reverse.dropWhile Char.isWhitespace).reverse⟩

/-- The `x !== null && !isNaN(x) ? x : null` validation step both parsers
apply to numeric fields before returning them. -/
def jsValidate : Option JsNumber → Option JsNumber
  | some JsNumber.nan => none
  | x => x

/-- Modelled behaviour of the JS `new URL(link).hostname` getter on the
absolute URLs the scraper meets: the text after the `://` scheme
separator up to the first `/`, `:`, `?` or `#`.  (Invalid URLs, on which
the constructor would throw, are outside this model.) -/
def urlHostname (link : String) : String :=
  let afterScheme :=
    if jsIncludes link "://" then (link.splitOn "://").getD 1 "" else link
  ⟨afterScheme.toList.takeWhile fun c => c ≠ '/' && c ≠ ':' && c ≠ '?' && c ≠ '#'⟩

/-! ## googleKnowledgePanelScraper.ts: data model -/

/-- `WatchOption` from googleKnowledgePanelScraper.ts: `price` is an
optional field (`price?: string`), so `none` models an absent field and
`some ""` a present-but-empty one (both falsy in JS). -/
structure WatchOption where
  link : String
  name : String
  price : Option String := none
deriving DecidableEq, Repr

/-- `Rating` from googleKnowledgePanelScraper.ts. -/
structure Rating where
  rating : String
  name : String
  link : String
deriving DecidableEq, Repr

/-- `priceMapper` from googleKnowledgePanelScraper.ts lines 64-70:
falsy input gives `''`; a case-insensitive `free` substring gives
`'Free'`; otherwise `price.replace('.00', '')` (first occurrence). -/
def priceMapper (price : String) : String :=
  if price = "" then ""
  else if jsIncludes (jsToLower price) "free" then "Free"
  else jsReplaceFirst price ".00" ""

/-! ### JS `Map` model

`squashWatchOptions` uses a `Map<string, WatchOption>`.  A JS `Map`
iterates in key-insertion order and `set` on an existing key overwrites
the value in place, keeping the key's original position; it is modelled
by an insertion-ordered association list. -/

/-- `Map.get`: the value stored under `k`, if any. -/
def mapGet (m : List (String × WatchOption)) (k : String) : Option WatchOption :=
  match m with
  | [] => none
  | (k', v') :: rest => if k' = k then some v' else mapGet rest k

/-- `Map.set`: overwrite in place when `k` is already a key, append
otherwise. -/
def mapSet (m : List (String × WatchOption)) (k : String) (v : WatchOption) : List (String × WatchOption) :=
  match m with
  | [] => [(k, v)]
  | (k', v') :: rest => if k' = k then (k, v) :: rest else (k', v') :: mapSet rest k v

/-- One iteration of the `squashWatchOptions` loop (lines 472-479): keep
the first-seen entry for a link unless the new entry has a truthy price
and the kept one does not. -/
def squashStep (m : List (String × WatchOption)) (o : WatchOption) : List (String × WatchOption) :=
  match mapGet m o.link with
  | none => mapSet m o.link o
  | some existing =>
    if optTruthy o.price && !optTruthy existing.price then mapSet m o.link o else m

/-- `squashWatchOptions` from googleKnowledgePanelScraper.ts lines
469-482: fold the input through the map and return the map's values in
key-insertion order (`Array.from(map.values())`). -/
def squashWatchOptions (watchOptions : List WatchOption) : List WatchOption :=
  ((watchOptions.foldl squashStep []).map Prod.snd)

/-! ### Ratings extraction (`extractRatings`, lines 286-331)

An `a.vIUFYd` anchor is modelled by the three pieces of data the code
reads from it; `none` stands for a missing child element or a null
`innerText`/`href` property (the code's two guards accept an anchor
exactly when all three are present and truthy, with no effect between
the guards, so the two levels collapse). -/

structure RatingAnchor where
  ratingText : Option String
  nameText : Option String
  href : Option String
deriving DecidableEq, Repr

structure RatingsPanel where
  anchors : List RatingAnchor
  googleRatingText : Option String
  pageUrl : String
deriving DecidableEq, Repr

/-- `linkStr.split('/title/')[1].split('/')[0]` from line 303. -/
def titleSegment (link : String) : String :=
  (((link.splitOn "/title/").getD 1 "").splitOn "/").headD ""

/-- The body of the `for` loop of `extractRatings`: accept an anchor when
rating text, name text and href are all truthy; each accepted anchor
whose link contains `/title/` overwrites `imdbId`. -/
def ratingStep (acc : List Rating × Option String) (a : RatingAnchor) : List Rating × Option String :=
  match a.ratingText, a.nameText, a.href with
  | some rv, some nv, some link =>
    if rv ≠ "" ∧ nv ≠ "" ∧ link ≠ "" then
      (acc.1 ++ [⟨rv, nv, link⟩],
       if jsIncludes link "/title/" then some (titleSegment link) else acc.2)
    else acc
  | _, _, _ => acc

/-- `extractRatings` from googleKnowledgePanelScraper.ts lines 286-331:
scan the rating anchors, then append the Google rating when its
percentage prefix parses. -/
def extractRatings (panel : RatingsPanel) : List Rating × Option String :=
  let (ratings, imdbId) := panel.anchors.foldl ratingStep ([], none)
  let ratings :=
    match panel.googleRatingText with
    | some t =>
      if t ≠ "" then
        let googleRating := ((t.splitOn "%").headD "") ++ "%"
        if jsParseInt10 ((googleRating.splitOn "%").headD "") ≠ JsNumber.nan then
          ratings ++ [⟨googleRating, "google", panel.pageUrl⟩]
        else ratings
      else ratings
    | none => ratings
  (ratings, imdbId)

/-! ### Watch-option extraction

Each source's DOM rows are modelled by the data the code reads from
them.  For price divs the element's presence and its text are separate
levels (`Option (Option String)`), because the secondary source chooses
a div by *presence* before reading its text. -/

structure PrimaryRow where
  href : Option String
  nameText : Option String
  priceText : Option String
deriving DecidableEq, Repr

structure PrimaryPanel where
  expandClickTarget : Bool
  container : Option (List PrimaryRow)
deriving DecidableEq, Repr

/-- `extractWatchOptionsFromPrimarySource` (lines 343-381): the primary
source pushes the raw price text, with the `price` field present only
when the text is truthy.  (The `waitForSelector` timeout path, which
throws out of the function, is outside this model.) -/
def extractWatchOptionsFromPrimarySource (panel : PrimaryPanel) : List WatchOption :=
  if !panel.expandClickTarget then []
  else
    match panel.container with
    | none => []
    | some rows =>
      rows.filterMap fun r =>
        match r.href, r.nameText with
        | some link, some name =>
          if link ≠ "" ∧ name ≠ "" then
            some { link, name, price := if optTruthy r.priceText then r.priceText else none }
          else none
        | _, _ => none

structure SecondaryRow where
  href : Option String
  nameText : Option String
  priceDiv1 : Option (Option String)
  priceDiv2 : Option (Option String)
deriving DecidableEq, Repr

structure SecondaryPanel where
  panelPresent : Bool
  rows : List SecondaryRow
deriving DecidableEq, Repr

/-- `extractWatchOptionsFromSecondarySource` (lines 384-436): missing
names fall back to the link's hostname, the price comes from
`div.rsj3fb` if that div exists, else `div.ZYHQ7e`, else `''`, and is
always passed through `priceMapper`. -/
def extractWatchOptionsFromSecondarySource (panel : SecondaryPanel) : List WatchOption :=
  if !panel.panelPresent then []
  else
    panel.rows.filterMap fun r =>
      match r.href with
      | some link =>
        if link ≠ "" then
          let name := match r.nameText with
            | some n => if n ≠ "" then n else urlHostname link
            | none => urlHostname link
          let price := match r.priceDiv1 with
            | some t => t.getD ""
            | none =>
              match r.priceDiv2 with
              | some t => t.getD ""
              | none => ""
          some { link, name, price := some (priceMapper price) }
        else none
      | none => none

structure FallbackRow where
  href : Option String
  spanText : Option (Option String)
  uiText : Option (Option String)
deriving DecidableEq, Repr

/-- `extractWatchOptionsFromFallbackSource` (lines 438-467): at most one
option, named by the link's hostname; a truthy price text (from the
anchor's `span`, else `.uiBRm`) is stored through `priceMapper`. -/
def extractWatchOptionsFromFallbackSource (panel : Option FallbackRow) : List WatchOption :=
  match panel with
  | none => []
  | some r =>
    match r.href with
    | none => []
    | some link =>
      if link = "" then []
      else
        let priceDom := match r.spanText with
          | some t => some t
          | none => r.uiText
        let priced : WatchOption :=
          match priceDom with
          | some (some p) =>
            if p ≠ "" then { link, name := urlHostname link, price := some (priceMapper p) }
            else { link, name := urlHostname link, price := none }
          | _ => { link, name := urlHostname link, price := none }
        [priced]

/-! ## ratingsScraper.ts: IMDb parser

A `script[type="application/ld+json"]` block is modelled by the data the
code inspects after `JSON.parse`: `none` stands for a block whose
content is missing or whose parse throws (the code logs and continues).
`ImdbAgg.ratingValue = some s` means the JSON field is present and
truthy with `String(value) = s`; `none` means absent or falsy.  The two
selector strings hold the text the CSS-selector fallback would read. -/

structure ImdbAgg where
  ratingValue : Option String
  ratingCount : Option String
deriving DecidableEq, Repr

structure ImdbLd where
  typeOk : Bool
  agg : Option ImdbAgg
deriving DecidableEq, Repr

structure ImdbPage where
  ldBlocks : List (Option ImdbLd)
  ratingStr : String
  ratingCountStr : String
deriving DecidableEq, Repr

/-- `ImdbScrapeResult` from ratingsScraper.ts (numbers that may be `NaN`
before validation are `JsNumber`). -/
structure ImdbScrapeResult where
  rating : Option JsNumber
  ratingCount : Option JsNumber
  sourceUrl : String
  error : Option String
deriving DecidableEq, Repr

/-- The `.each` loop over JSON-LD blocks in `parseImdbHtml` (lines
105-130): a Movie/TVSeries block with an `aggregateRating` overwrites
whichever of the two fields it carries; the loop exits early as soon as
both are non-null. -/
def imdbScanBlocks : List (Option ImdbLd) → Option JsNumber → Option JsNumber →
    Option JsNumber × Option JsNumber
  | [], r, c => (r, c)
  | none :: rest, r, c => imdbScanBlocks rest r c
  | some b :: rest, r, c =>
    if b.typeOk then
      match b.agg with
      | none => imdbScanBlocks rest r c
      | some agg =>
        let r' := match agg.ratingValue with
          | some s => some (jsParseFloat s)
          | none => r
        let c' := match agg.ratingCount with
          | some s => some (jsParseInt10 s)
          | none => c
        if r'.isSome && c'.isSome then (r', c')
        else imdbScanBlocks rest r' c'
    else imdbScanBlocks rest r c

/-- `str.replace(/[^0-9.]/g, '')` from line 151. -/
def stripNonDigitDot (s : String) : String :=
  ⟨s.toList.filter fun c => c.isDigit || c = '.'⟩

/-- `str.replace(/[^0-9]/g, '')` from line 158. -/
def stripNonDigit (s : String) : String :=
  ⟨s.toList.filter Char.isDigit⟩

/-- The rating-count branch of the CSS-selector fallback of
`parseImdbHtml` (lines 149-161), applied to the trimmed, upper-cased
count text: an `M` anywhere in the text multiplies the kept digits-and-
dots prefix value by 1e6 (rounded), else a `K` by 1e3, else the digits
are parsed directly; an unparseable numeric part leaves the count
unchanged. -/
def imdbFallbackCount (ratingCountStr : String) (c : Option JsNumber) : Option JsNumber :=
  match jsParseFloat (stripNonDigitDot ratingCountStr) with
  | JsNumber.nan => c
  | JsNumber.num numPart =>
    if jsIncludes ratingCountStr "M" then some (JsNumber.num (jsRound (qMul numPart (jsInt 1000000))))
    else if jsIncludes ratingCountStr "K" then some (JsNumber.num (jsRound (qMul numPart (jsInt 1000))))
    else some (jsParseInt10 (stripNonDigit ratingCountStr))

/-- `parseImdbHtml` from ratingsScraper.ts lines 97-185: JSON-LD scan,
then CSS-selector fallback for whichever field is still null, then the
`isNaN` validation.  The final `catch` is unreachable in this total
model, so `error` is always null. -/
def parseImdbHtml (p : ImdbPage) (url : String) : ImdbScrapeResult :=
  let (r0, c0) := imdbScanBlocks p.ldBlocks none none
  let ratingStr := jsTrim p.ratingStr
  let ratingCountStr := jsToUpper (jsTrim p.ratingCountStr)
  let r1 := if r0 = none ∧ ratingStr ≠ "" then some (jsParseFloat ratingStr) else r0
  let c1 := if c0 = none ∧ ratingCountStr ≠ "" then imdbFallbackCount ratingCountStr c0 else c0
  { rating := jsValidate r1
    ratingCount := jsValidate c1
    sourceUrl := url
    error := none }

/-! ## ratingsScraper.ts: Rotten Tomatoes parser

JSON-LD blocks are modelled as for IMDb.  `RtMainAgg.ratingValue = some s`
means `aggregateRating.ratingValue` is present with `typeof` number or
string and `String(value) = s` (the code only converts those two types).
The audience sub-object has no `typeof` guard, so its two fields are the
`String(...)` conversions directly, `"undefined"` when the JSON field is
absent.  `reviewBody = some t` means `review.reviewBody` is present and
truthy. -/

structure RtMainAgg where
  ratingValue : Option String
  reviewCount : Option String
deriving DecidableEq, Repr

structure RtAudAgg where
  ratingValueStr : String
  ratingCountStr : String
deriving DecidableEq, Repr

structure RtLd where
  typeOk : Bool
  agg : Option RtMainAgg
  audienceAgg : Option RtAudAgg
  reviewBody : Option String
deriving DecidableEq, Repr

/-- The `media-scorecard` widget: the four slot texts the code reads and
the attributes of the two score icons (`none` = icon or attribute
absent, which cheerio's `attr` reports as `undefined`). -/
structure RtScorecard where
  criticsScoreText : String
  criticsReviewsText : String
  audienceScoreText : String
  audienceReviewsText : String
  criticCertifiedAttr : Option String
  criticSentimentAttr : Option String
  criticScoreAttr : Option String
  audienceCertifiedAttr : Option String
  audienceSentimentAttr : Option String
deriving DecidableEq, Repr

structure RtPage where
  ldBlocks : List (Option RtLd)
  scorecard : Option RtScorecard
  criticsConsensusP : String
  criticsConsensusQa : String
  consensusText : String
  audienceConsensusP : String
  audienceConsensusQa : String
  audienceConsensusText : String
deriving DecidableEq, Repr

/-- State of the JSON-LD `.each` loop of `parseRottenTomatoesHtml`
(lines 221-273).  `complete` records that the loop exited early with all
five tracked values non-null — the branch that also sets
`didFallbackParseCertifiedSentiment` (line 267). -/
structure RtJsonState where
  criticScore : Option JsNumber
  criticReviewCount : Option JsNumber
  audienceScore : Option JsNumber
  audienceReviewCount : Option JsNumber
  consensus : Option String
  complete : Bool
deriving DecidableEq, Repr

def rtJsonInit : RtJsonState :=
  ⟨none, none, none, none, none, false⟩

/-- The JSON-LD loop: a typed block's `aggregateRating` sets the critic
pair, any block's `audience.aggregateRating` sets the audience pair, any
block's truthy `review.reviewBody` sets the consensus; the loop exits
early once all five are non-null. -/
def rtJsonScan : List (Option RtLd) → RtJsonState → RtJsonState
  | [], st => st
  | none :: rest, st => rtJsonScan rest st
  | some b :: rest, st =>
    let st1 :=
      if b.typeOk then
        match b.agg with
        | some agg =>
          { st with
            criticScore := match agg.ratingValue with
              | some s => some (jsParseInt10 s)
              | none => st.criticScore
            criticReviewCount := match agg.reviewCount with
              | some s => some (jsParseInt10 s)
              | none => st.criticReviewCount }
        | none => st
      else st
    let st2 := match b.audienceAgg with
      | some a =>
        { st1 with
          audienceScore := some (jsParseInt10 a.ratingValueStr)
          audienceReviewCount := some (jsParseInt10 a.ratingCountStr) }
      | none => st1
    let st3 := match b.reviewBody with
      | some t => { st2 with consensus := some (jsTrim t) }
      | none => st2
    if st3.criticScore.isSome && st3.criticReviewCount.isSome && st3.audienceScore.isSome
        && st3.audienceReviewCount.isSome && st3.consensus.isSome then
      { st3 with complete := true }
    else rtJsonScan rest st3

/-- Result of the `media-scorecard` fallback section (lines 275-316).
`widgetCertSent` records the line 311-313 condition: the widget yielded
non-null certified and sentiment values. -/
structure RtFallbackState where
  criticScore : Option JsNumber
  criticReviewCount : Option JsNumber
  audienceScore : Option JsNumber
  audienceReviewCount : Option JsNumber
  criticCertified : Option Bool
  criticSentiment : Option String
  audienceCertified : Option Bool
  audienceSentiment : Option String
  iconCriticScore : Option JsNumber
  widgetCertSent : Bool
deriving DecidableEq, Repr

def rtFallbackEmpty : RtFallbackState :=
  ⟨none, none, none, none, none, none, none, none, none, false⟩

/-- The scorecard-widget section: slot texts parsed as the code does
(`%` stripped from scores, non-digits from the critic count, a leading
digits-and-commas run for the audience count), icon attributes read with
`certified === 'true'` always producing a boolean and an empty or absent
`sentiment` attribute collapsing to null. -/
def rtScorecardScan : Option RtScorecard → RtFallbackState
  | none => rtFallbackEmpty
  | some sc =>
    let scoreText := jsTrim sc.criticsScoreText
    let fcs0 : Option JsNumber :=
      if scoreText ≠ "" then some (jsParseInt10 (jsReplaceFirst scoreText "%" "")) else none
    let fcs := match fcs0 with
      | some JsNumber.nan => none
      | x => x
    let criticCountText := jsTrim sc.criticsReviewsText
    let fcc : Option JsNumber :=
      if criticCountText ≠ "" then some (jsParseInt10 (stripNonDigit criticCountText)) else none
    let audienceScoreText := jsTrim sc.audienceScoreText
    let fas : Option JsNumber :=
      if audienceScoreText ≠ "" then some (jsParseInt10 (jsReplaceFirst audienceScoreText "%" "")) else none
    let audienceCountText := jsTrim sc.audienceReviewsText
    let leadRun := audienceCountText.toList.takeWhile fun c => c.isDigit || c = ','
    let farc : Option JsNumber :=
      if leadRun ≠ [] then some (jsParseInt10 ⟨leadRun.filter (· ≠ ',')⟩) else none
    let fcCert : Option Bool := some (sc.criticCertifiedAttr == some "true")
    let fcSent : Option String := match sc.criticSentimentAttr with
      | some s => if s ≠ "" then some s else none
      | none => none
    let ics0 : Option JsNumber := match sc.criticScoreAttr with
      | some a => if a ≠ "" then some (jsParseInt10 a) else none
      | none => none
    let ics := match ics0 with
      | some JsNumber.nan => none
      | x => x
    let faCert : Option Bool := some (sc.audienceCertifiedAttr == some "true")
    let faSent : Option String := match sc.audienceSentimentAttr with
      | some s => if s ≠ "" then some s else none
      | none => none
    { criticScore := fcs
      criticReviewCount := fcc
      audienceScore := fas
      audienceReviewCount := farc
      criticCertified := fcCert
      criticSentiment := fcSent
      audienceCertified := faCert
      audienceSentiment := faSent
      iconCriticScore := ics
      widgetCertSent := fcCert.isSome && fcSent.isSome }

/-- The `replace(/^Label:\s*/i, '')` step of the consensus fallbacks:
drop a case-insensitive label prefix and the whitespace after it. -/
def stripLabel (label : String) (s : String) : String :=
  if (jsToLower s).startsWith label then ⟨(s.toList.drop label.length).dropWhile Char.isWhitespace⟩
  else s

/-- Critic-consensus fallback chain (lines 318-327). -/
def rtFallbackConsensus (p : RtPage) : String :=
  let a := jsTrim p.criticsConsensusP
  let b := jsTrim p.criticsConsensusQa
  let fc := if a ≠ "" then a else b
  if fc = "" then stripLabel "critics consensus:" (jsTrim p.consensusText) else fc

/-- Audience-consensus fallback chain (lines 329-338). -/
def rtFallbackAudienceConsensus (p : RtPage) : String :=
  let a := jsTrim p.audienceConsensusP
  let b := jsTrim p.audienceConsensusQa
  let fc := if a ≠ "" then a else b
  if fc = "" then stripLabel "audience says:" (jsTrim p.audienceConsensusText) else fc

structure RtCriticData where
  score : Option JsNumber
  ratingCount : Option JsNumber
  certified : Option Bool
  sentiment : Option String
  consensus : Option String
deriving DecidableEq, Repr

structure RtAudienceData where
  score : Option JsNumber
  ratingCount : Option JsNumber
  certified : Option Bool
  sentiment : Option String
  consensus : Option String
deriving DecidableEq, Repr

structure RtScrapeResult where
  critic : Option RtCriticData
  audience : Option RtAudienceData
  sourceUrl : String
  error : Option String
deriving DecidableEq, Repr

/-- The critic-score decision logic of lines 340-348, before
validation: icon score, else widget score when
`didFallbackParseCertifiedSentiment` (set by the widget at line 311 *or*
by the JSON-LD completeness early exit at line 267) holds and the widget
score is non-null, else `jsonCriticScore ?? fallbackCriticScore`. -/
def rtFinalCriticScore (p : RtPage) : Option JsNumber :=
  let js := rtJsonScan p.ldBlocks rtJsonInit
  let fb := rtScorecardScan p.scorecard
  let didFlag := js.complete || fb.widgetCertSent
  if fb.iconCriticScore.isSome then fb.iconCriticScore
  else if didFlag && fb.criticScore.isSome then fb.criticScore
  else js.criticScore <|> fb.criticScore

/-- The critic sub-object assembled on lines 349-373 (after the `isNaN`
validation). -/
def rtCriticDataOf (p : RtPage) : RtCriticData :=
  let js := rtJsonScan p.ldBlocks rtJsonInit
  let fb := rtScorecardScan p.scorecard
  let finalConsensus : String := match js.consensus with
    | some s => s
    | none => rtFallbackConsensus p
  { score := jsValidate (rtFinalCriticScore p)
    ratingCount := jsValidate (js.criticReviewCount <|> fb.criticReviewCount)
    certified := fb.criticCertified
    sentiment := fb.criticSentiment
    consensus := if finalConsensus = "" then none else some finalConsensus }

/-- The audience sub-object assembled on lines 350-381 (after the `isNaN`
validation; `jsonAudienceConsensus` is declared but never assigned in the
source, so the consensus always comes from the fallback chain). -/
def rtAudienceDataOf (p : RtPage) : RtAudienceData :=
  let js := rtJsonScan p.ldBlocks rtJsonInit
  let fb := rtScorecardScan p.scorecard
  let finalAudienceConsensus : String := rtFallbackAudienceConsensus p
  { score := jsValidate (js.audienceScore <|> fb.audienceScore)
    ratingCount := jsValidate (js.audienceReviewCount <|> fb.audienceReviewCount)
    certified := fb.audienceCertified
    sentiment := fb.audienceSentiment
    consensus := if finalAudienceConsensus = "" then none else some finalAudienceConsensus }

/-- `parseRottenTomatoesHtml` from ratingsScraper.ts lines 194-403:
JSON-LD scan, scorecard scan, consensus fallbacks, then the decision
logic of lines 340-357, the `isNaN` validation and the nullity rules for
the two sub-objects.  The final `catch` is unreachable in this total
model, so `error` is always null. -/
def parseRottenTomatoesHtml (p : RtPage) (url : String) : RtScrapeResult :=
  let criticData := rtCriticDataOf p
  let audienceData := rtAudienceDataOf p
  { critic :=
      if criticData.score.isSome || criticData.ratingCount.isSome || criticData.consensus.isSome then
        some criticData
      else none
    audience :=
      if audienceData.score.isSome || audienceData.ratingCount.isSome || audienceData.consensus.isSome then
        some audienceData
      else none
    sourceUrl := url
    error := none }

/-! ## ratingsScraper.ts: `scrapeRatings` and the per-source glue -/

structure RatingsData where
  imdb : Option ImdbScrapeResult
  rottenTomatoes : Option RtScrapeResult
deriving DecidableEq, Repr

/-- The IMDb URL built on line 418. -/
def imdbUrlOf (id : String) : String :=
  "https://www.imdb.com/title/" ++ id ++ "/"

/-- `scrapeRatings` from ratingsScraper.ts lines 411-457.  The two
`fetchHtml` calls are effectful, so each source's fetch outcome is an
explicit argument: `Except.ok` carries the page a successful fetch would
parse, `Except.error` the thrown error's message (network failure or the
non-ok status error thrown by `fetchHtml`). -/
def scrapeRatings (imdbId rottenTomatoesUrl : Option String)
    (imdbFetch : Except String ImdbPage) (rtFetch : Except String RtPage) : RatingsData :=
  let imdb :=
    if optTruthy imdbId then
      let url := imdbUrlOf (imdbId.getD "")
      some (match imdbFetch with
        | Except.ok page => parseImdbHtml page url
        | Except.error msg =>
          { rating := none, ratingCount := none, sourceUrl := url
            error := some ("IMDb scrape failed: " ++ msg) })
    else none
  let rottenTomatoes :=
    if optTruthy rottenTomatoesUrl then
      let url := rottenTomatoesUrl.getD ""
      some (match rtFetch with
        | Except.ok page => parseRottenTomatoesHtml page url
        | Except.error msg =>
          { critic := none, audience := none, sourceUrl := url
            error := some ("Rotten Tomatoes scrape failed: " ++ msg) })
    else none
  { imdb, rottenTomatoes }

/-! ## googleKnowledgePanelScraper.ts: handler resource discipline

The handler (lines 601-649) declares `const scraper` at line 602 and a
second, shadowing `const scraper` inside the `try` block at line 621; a
`const` declared inside the `try` braces is not in scope in the
`finally` block, so line 647 runs `close()` on the line-602 scraper,
whose `browser` field is still `null`.  The model tracks both scraper
objects' browser state explicitly. -/

/-- A scraper object reduced to what `close()` inspects: whether its
`browser` field currently holds an open browser. -/
structure ScraperState where
  browser : Bool
deriving DecidableEq, Repr

/-- `close()` from lines 264-270: closing nulls the browser when one is
open and does nothing otherwise; either way the field is null after. -/
def scraperClose (_ : ScraperState) : ScraperState :=
  { browser := false }

/-- The branch conditions of one handler invocation: whether
`JSON.parse(event.body || '{}')` succeeds, the parsed `searchString`,
whether the inner scraper's initialization completes (with
`launchedInInitFailure` telling whether the browser had already been
launched when a failing initialization threw), and whether `scrape`
returns rather than throws. -/
structure GKHandlerEnv where
  parseOk : Bool
  searchString : Option String
  initOk : Bool
  launchedInInitFailure : Bool
  scrapeOk : Bool
deriving DecidableEq, Repr

structure GKHandlerTrace where
  statusCode : Nat
  innerLaunched : Bool
  innerOpenAtReturn : Bool
  outerOpenAtReturn : Bool
deriving DecidableEq, Repr

/-- The `handler` of googleKnowledgePanelScraper.ts lines 601-649.  The
try/catch body yields the status code and the inner scraper's browser
state at the moment the body finishes (on every path out of `scrape` —
success, mid-scrape throw, or bot-detection-limit throw — the browser
most recently launched for the inner scraper is still open, since
`scrape` closes it only in the middle of a retry and immediately
relaunches).  The `finally` block then closes the *outer* scraper. -/
def googleHandler (env : GKHandlerEnv) : GKHandlerTrace :=
  let outerScraper : ScraperState := { browser := false }
  let bodyOutcome : Nat × Bool × ScraperState :=
    if !env.parseOk then (500, false, { browser := false })
    else if !optTruthy env.searchString then (400, false, { browser := false })
    else if !env.initOk then (500, env.launchedInInitFailure, { browser := env.launchedInInitFailure })
    else if !env.scrapeOk then (500, true, { browser := true })
    else (200, true, { browser := true })
  let outerAfter := scraperClose outerScraper
  { statusCode := bodyOutcome.1
    innerLaunched := bodyOutcome.2.1
    innerOpenAtReturn := bodyOutcome.2.2.browser
    outerOpenAtReturn := outerAfter.browser }

/-! ## googleKnowledgePanelScraper.ts: bot-detection retry loop -/

def MAX_RETRIES : Nat := 3

def RETRY_DELAY : Nat := 5000

/-- Observable events of one `scrape` call (lines 484-598): page loads
performed, `close()` calls and cooldown delays inside the retry path,
re-initializations (each running `rotateProxy` once and `setupPage` —
one fingerprint generation — once), and the outcome. -/
structure ScrapeOutcome where
  attempts : Nat
  closes : Nat
  delays : List Nat
  reinits : Nat
  proxyRotationCalls : Nat
  fingerprintSetups : Nat
  result : Except String Unit
deriving Repr

/-- The recursion of `scrape` (lines 544-556): `detect` tells whether
the page content of a given attempt shows a blocking phrase.  On
detection `retryCount` is incremented; below `MAX_RETRIES` the session
is closed, a `RETRY_DELAY` cooldown elapses, the session is
re-initialized and the scrape restarts; otherwise the call throws the
terminal error.  `fuel` only makes the recursion structural: callers
pass `MAX_RETRIES - retryCount`, which keeps the zero-fuel branch
unreachable because the recursive call is guarded by
`retryCount + 1 < MAX_RETRIES`. -/
def scrapeAttempts (detect : Nat → Bool) : Nat → Nat → Nat → ScrapeOutcome
  | idx, retryCount, fuel =>
    if detect idx then
      if retryCount + 1 < MAX_RETRIES then
        match fuel with
        | 0 => ⟨1, 0, [], 0, 0, 0, Except.error "fuel exhausted"⟩
        | fuel' + 1 =>
          let rest := scrapeAttempts detect (idx + 1) (retryCount + 1) fuel'
          ⟨rest.attempts + 1, rest.closes + 1, RETRY_DELAY :: rest.delays,
           rest.reinits + 1, rest.proxyRotationCalls + 1, rest.fingerprintSetups + 1,
           rest.result⟩
      else ⟨1, 0, [], 0, 0, 0, Except.error "Bot detection limit reached after multiple retries"⟩
    else ⟨1, 0, [], 0, 0, 0, Except.ok ()⟩

/-- One logical `scrape` call, entered with `retryCount = 0` (the field
is reset to 0 on every successful request). -/
def scrapeModel (detect : Nat → Bool) : ScrapeOutcome :=
  scrapeAttempts detect 0 0 MAX_RETRIES

/-! ## Claim-side specification functions

These are written from the spec's words, to be compared with the
definitions above. -/

/-- Claim C9's price rule as stated: case-insensitive `free` substring
gives `Free`, otherwise a *trailing* `.00` is stripped, otherwise the
string passes through unchanged. -/
def specPriceMapperClaimed (price : String) : String :=
  if jsIncludes (jsToLower price) "free" then "Free"
  else if jsEndsWith price ".00" then ⟨price.toList.take (price.toList.length - 3)⟩
  else price

/-- Claim C5's count rule as stated: an `M` *suffix* multiplies the
numeric part by 1e6 (rounded), a `K` suffix by 1e3, otherwise the plain
digits are parsed. -/
def specCountClaimed (t : String) : Option JsNumber :=
  match jsParseFloat (stripNonDigitDot t) with
  | JsNumber.nan => none
  | JsNumber.num numPart =>
    if jsEndsWith t "M" then some (JsNumber.num (jsRound (qMul numPart (jsInt 1000000))))
    else if jsEndsWith t "K" then some (JsNumber.num (jsRound (qMul numPart (jsInt 1000))))
    else some (jsParseInt10 (stripNonDigit t))

/-- Claim C6's critic-score precedence as stated: icon score, else the
widget score when the widget yielded non-null certified and sentiment,
else the structured-data score, else the widget score. -/
def specCriticScoreClaimed (icon widget json : Option JsNumber) (widgetCertSent : Bool) : Option JsNumber :=
  if icon.isSome then icon
  else if widgetCertSent && widget.isSome then widget
  else if json.isSome then json
  else widget

/-- The amended C6 precedence: the widget score also wins when the
JSON-LD pass had found all five tracked values and therefore set the
same flag. -/
def specCriticScoreAmended (icon widget json : Option JsNumber)
    (widgetCertSent jsonComplete : Bool) : Option JsNumber :=
  if icon.isSome then icon
  else if (jsonComplete || widgetCertSent) && widget.isSome then widget
  else if json.isSome then json
  else widget

/-- The critic-score slot of a Rotten Tomatoes result (null when the
whole critic object was nulled out). -/
def rtCriticScoreOf (r : RtScrapeResult) : Option JsNumber :=
  match r.critic with
  | some c => c.score
  | none => none

/-- Claim C10's view of a rating anchor: an accepted rating badge (all
three pieces truthy) whose link contains `/title/` contributes the path
segment after `/title/`. -/
def anchorTitleId (a : RatingAnchor) : Option String :=
  match a.ratingText, a.nameText, a.href with
  | some rv, some nv, some link =>
    if rv ≠ "" ∧ nv ≠ "" ∧ link ≠ "" ∧ jsIncludes link "/title/" then some (titleSegment link)
    else none
  | _, _, _ => none

/-- A JSON-LD block that would enter `parseImdbHtml`'s typed branch:
Movie/TVSeries with an `aggregateRating`. -/
def imdbBlockTyped (b : Option ImdbLd) : Bool :=
  match b with
  | some blk => blk.typeOk && blk.agg.isSome
  | none => false

/-- Claim C4's notion of a well-formed block: typed, with both a truthy
rating value and a truthy rating count that parse to numbers. -/
def imdbBlockCarriesBoth (b : Option ImdbLd) : Bool :=
  match b with
  | some blk =>
    blk.typeOk &&
      (match blk.agg with
        | some agg =>
          (match agg.ratingValue with
            | some v => jsParseFloat v ≠ JsNumber.nan
            | none => false) &&
          (match agg.ratingCount with
            | some c => jsParseInt10 c ≠ JsNumber.nan
            | none => false)
        | none => false)
  | none => false

/-! ## Helper lemmas: the `Map` model -/

theorem mapGet_eq_none_iff (m : List (String × WatchOption)) (k : String) :
    mapGet m k = none ↔ k ∉ m.map Prod.fst := by
  induction m with
  | nil => simp [mapGet]
  | cons p rest ih =>
    obtain ⟨k', v'⟩ := p
    by_cases h : k' = k
    · subst h
      simp [mapGet]
    · simp [mapGet, h, ih, Ne.symm h]

theorem mapSet_of_not_mem (m : List (String × WatchOption)) (k : String) (v : WatchOption)
    (h : k ∉ m.map Prod.fst) : mapSet m k v = m ++ [(k, v)] := by
  induction m with
  | nil => simp [mapSet]
  | cons p rest ih =>
    obtain ⟨k', v'⟩ := p
    simp only [List.map_cons, List.mem_cons] at h
    push_neg at h
    simp [mapSet, Ne.symm h.1, ih h.2]

theorem mapSet_keys_of_mem (m : List (String × WatchOption)) (k : String) (v : WatchOption)
    (h : k ∈ m.map Prod.fst) : (mapSet m k v).map Prod.fst = m.map Prod.fst := by
  induction m with
  | nil => simp at h
  | cons p rest ih =>
    obtain ⟨k', v'⟩ := p
    by_cases hk : k' = k
    · subst hk
      simp [mapSet]
    · simp only [List.map_cons, List.mem_cons] at h
      rcases h with h | h

      · exact absurd h.symm hk
      · simp [mapSet, hk, ih h]

theorem mem_mapSet (k : String) (v : WatchOption) (p : String × WatchOption) :
    ∀ m : List (String × WatchOption), p ∈ mapSet m k v → p = (k, v) ∨ p ∈ m := by
  intro m
  induction m with
  | nil =>
    intro hp
    simpa [mapSet] using hp
  | cons q rest ih =>
    obtain ⟨k', v'⟩ := q
    intro hp
    by_cases hk : k' = k
    · rw [show mapSet ((k', v') :: rest) k v = (k, v) :: rest from by simp [mapSet, hk]] at hp
      rcases List.mem_cons.mp hp with h | h
      · exact Or.inl h
      · exact Or.inr (List.mem_cons_of_mem _ h)
    · rw [show mapSet ((k', v') :: rest) k v = (k', v') :: mapSet rest k v from by
        simp [mapSet, hk]] at hp
      rcases List.mem_cons.mp hp with h | h
      · exact Or.inr (by simp [h])
      · rcases ih h with h' | h'
        · exact Or.inl h'
        · exact Or.inr (List.mem_cons_of_mem _ h')

theorem mapGet_append (m1 m2 : List (String × WatchOption)) (k : String) :
    mapGet (m1 ++ m2) k = ((mapGet m1 k).rec (mapGet m2 k) fun v => some v : Option WatchOption) := by
  induction m1 with
  | nil => simp [mapGet]
  | cons p rest ih =>
    obtain ⟨k', v'⟩ := p
    by_cases h : k' = k
    · simp [mapGet, h]
    · simp [mapGet, h, ih]

/-- The invariants the squash fold keeps: keys are distinct, and each
stored entry sits under its own link. -/
theorem squashStep_inv (m : List (String × WatchOption)) (o : WatchOption)
    (hnd : (m.map Prod.fst).Nodup) (hlink : ∀ p ∈ m, (p.2).link = p.1) :
    ((squashStep m o).map Prod.fst).Nodup ∧ ∀ p ∈ squashStep m o, (p.2).link = p.1 := by
  unfold squashStep
  cases hget : mapGet m o.link with
  | none =>
    have hmem : o.link ∉ m.map Prod.fst := (mapGet_eq_none_iff m o.link).mp hget
    rw [mapSet_of_not_mem m o.link o hmem]
    constructor
    · simp only [List.map_append, List.map_cons, List.map_nil]
      exact List.Nodup.append hnd (List.nodup_singleton _) (by simpa using hmem)
    · intro p hp
      rcases List.mem_append.mp hp with h | h
      · exact hlink p h
      · simp only [List.mem_singleton] at h
        subst h
        rfl
  | some existing =>
    by_cases hcond : (optTruthy o.price && !optTruthy existing.price) = true
    · simp only [hcond, if_true]
      have hmem : o.link ∈ m.map Prod.fst := by
        by_contra hx
        rw [(mapGet_eq_none_iff m o.link).mpr hx] at hget
        exact Option.noConfusion hget
      constructor
      · rw [mapSet_keys_of_mem m o.link o hmem]
        exact hnd
      · intro p hp
        rcases mem_mapSet o.link o p m hp with h | h
        · subst h
          rfl
        · exact hlink p h
    · simp only [Bool.not_eq_true] at hcond
      simp only [hcond, if_false]
      exact ⟨hnd, hlink⟩

theorem squashFold_inv (l : List WatchOption) :
    ∀ m, (m.map Prod.fst).Nodup → (∀ p ∈ m, (p.2).link = p.1) →
      ((l.foldl squashStep m).map Prod.fst).Nodup ∧
        ∀ p ∈ l.foldl squashStep m, (p.2).link = p.1 := by
  induction l with
  | nil => intro m hnd hlink; exact ⟨hnd, hlink⟩
  | cons o rest ih =>
    intro m hnd hlink
    have h := squashStep_inv m o hnd hlink
    exact ih (squashStep m o) h.1 h.2

theorem squashWatchOptions_links_nodup (l : List WatchOption) :
    ((squashWatchOptions l).map WatchOption.link).Nodup := by
  have h := squashFold_inv l [] (by simp) (by simp)
  have heq : (l.foldl squashStep []).map (fun p => (p.2).link) =
      (l.foldl squashStep []).map Prod.fst :=
    List.map_congr_left fun p hp => h.2 p hp
  simpa [squashWatchOptions, List.map_map, Function.comp] using heq ▸ h.1

/-- A fold over entries whose links are fresh and mutually distinct just
appends them to the map. -/
theorem squashFold_of_nodup (r : List WatchOption) :
    ∀ m, (∀ o ∈ r, mapGet m o.link = none) → (r.map WatchOption.link).Nodup →
      r.foldl squashStep m = m ++ r.map fun o => (o.link, o) := by
  induction r with
  | nil => intro m _ _; simp
  | cons o rest ih =>
    intro m hfresh hnd
    have hstep : squashStep m o = m ++ [(o.link, o)] := by
      unfold squashStep
      rw [hfresh o (List.mem_cons_self o rest)]
      exact mapSet_of_not_mem m o.link o
        ((mapGet_eq_none_iff m o.link).mp (hfresh o (List.mem_cons_self o rest)))
    have hnd0 : (o.link :: rest.map WatchOption.link).Nodup := by simpa using hnd
    have hnotin : o.link ∉ rest.map WatchOption.link := (List.nodup_cons.mp hnd0).1
    have hfresh' : ∀ o' ∈ rest, mapGet (m ++ [(o.link, o)]) o'.link = none := by
      intro o' ho'
      rw [mapGet_append]
      rw [hfresh o' (List.mem_cons_of_mem o ho')]
      have : o'.link ≠ o.link := by
        intro hEq
        exact hnotin (hEq ▸ List.mem_map_of_mem WatchOption.link ho')
      simp [mapGet, this.symm]
    have hnd' : (rest.map WatchOption.link).Nodup := (List.nodup_cons.mp hnd0).2
    calc (o :: rest).foldl squashStep m = rest.foldl squashStep (squashStep m o) := rfl
      _ = rest.foldl squashStep (m ++ [(o.link, o)]) := by rw [hstep]
      _ = (m ++ [(o.link, o)]) ++ rest.map (fun o => (o.link, o)) := ih _ hfresh' hnd'
      _ = m ++ (o :: rest).map (fun o => (o.link, o)) := by simp

theorem squashWatchOptions_of_nodup (r : List WatchOption)
    (hnd : (r.map WatchOption.link).Nodup) : squashWatchOptions r = r := by
  unfold squashWatchOptions
  rw [squashFold_of_nodup r [] (fun o _ => rfl) hnd]
  rw [List.nil_append, List.map_map]
  exact List.map_id r

/-- C1: for every list of watch options, `squashWatchOptions` keeps at
most one entry per distinct link; it is idempotent (squashing a squashed
list returns it unchanged, so in particular the same set); and for two
entries sharing a link of which exactly one carries a (truthy) price,
the output is exactly the priced entry, whichever of the two orders the
pair arrives in. -/
theorem squashWatchOptions_dedup_idem_price :
    (∀ l : List WatchOption, ((squashWatchOptions l).map WatchOption.link).Nodup) ∧
    (∀ l : List WatchOption, squashWatchOptions (squashWatchOptions l) = squashWatchOptions l) ∧
    ∀ e1 e2 : WatchOption, e2.link = e1.link → optTruthy e1.price = true →
      optTruthy e2.price = false →
      squashWatchOptions [e1, e2] = [e1] ∧ squashWatchOptions [e2, e1] = [e1] := by
  refine ⟨squashWatchOptions_links_nodup, ?_, ?_⟩
  · intro l
    exact squashWatchOptions_of_nodup _ (squashWatchOptions_links_nodup l)
  · intro e1 e2 hl h1 h2
    constructor
    · show ([e1, e2].foldl squashStep []).map Prod.snd = [e1]
      have s1 : squashStep [] e1 = [(e1.link, e1)] := by
        unfold squashStep
        simp [mapGet, mapSet]
      have hget : mapGet [(e1.link, e1)] e2.link = some e1 := by
        simp [mapGet, hl]
      have s2 : squashStep [(e1.link, e1)] e2 = [(e1.link, e1)] := by
        unfold squashStep
        rw [hget]
        simp [h2]
      simp [List.foldl, s1, s2]
    · show ([e2, e1].foldl squashStep []).map Prod.snd = [e1]
      have s1 : squashStep [] e2 = [(e2.link, e2)] := by
        unfold squashStep
        simp [mapGet, mapSet]
      have hget : mapGet [(e2.link, e2)] e1.link = some e2 := by
        simp [mapGet, hl]
      have s2 : squashStep [(e2.link, e2)] e1 = [(e1.link, e1)] := by
        unfold squashStep
        rw [hget]
        simp [h1, h2, mapSet, hl]
      simp [List.foldl, s1, s2]

/-- Witness for C1 at a concrete pair of entries sharing a link where
only the first carries a price. -/
theorem squashWatchOptions_dedup_idem_price_witness :
    squashWatchOptions [⟨"https://a.tv/w", "A", some "$5"⟩, ⟨"https://a.tv/w", "B", none⟩] =
        [⟨"https://a.tv/w", "A", some "$5"⟩] ∧
      squashWatchOptions [⟨"https://a.tv/w", "B", none⟩, ⟨"https://a.tv/w", "A", some "$5"⟩] =
        [⟨"https://a.tv/w", "A", some "$5"⟩] :=
  squashWatchOptions_dedup_idem_price.2.2 ⟨"https://a.tv/w", "A", some "$5"⟩
    ⟨"https://a.tv/w", "B", none⟩ rfl (by decide) (by decide)

/-! ## Helper lemmas: ratings extraction -/

theorem ratingStep_snd (acc : List Rating × Option String) (a : RatingAnchor) :
    (ratingStep acc a).2 =
      match anchorTitleId a with
      | some t => some t
      | none => acc.2 := by
  obtain ⟨rt, nt, hf⟩ := a
  unfold ratingStep anchorTitleId
  cases rt with
  | none => simp
  | some rv =>
    cases nt with
    | none => simp
    | some nv =>
      cases hf with
      | none => simp
      | some link =>
        by_cases hacc : rv ≠ "" ∧ nv ≠ "" ∧ link ≠ ""
        · by_cases ht : jsIncludes link "/title/" = true
          · simp [hacc, ht]
          · simp only [Bool.not_eq_true] at ht
            simp [hacc, ht]
        · have : ¬(rv ≠ "" ∧ nv ≠ "" ∧ link ≠ "" ∧ jsIncludes link "/title/" = true) := by
            intro h
            exact hacc ⟨h.1, h.2.1, h.2.2.1⟩
          simp [hacc, this]

theorem ratingFold_imdbId (l : List RatingAnchor) :
    ∀ acc : List Rating × Option String,
      (l.foldl ratingStep acc).2 =
        match (l.filterMap anchorTitleId).getLast? with
        | some x => some x
        | none => acc.2 := by
  induction l with
  | nil =>
    intro acc
    simp
  | cons a rest ih =>
    intro acc
    have hstep := ratingStep_snd acc a
    show (rest.foldl ratingStep (ratingStep acc a)).2 = _
    rw [ih (ratingStep acc a)]
    cases ha : anchorTitleId a with
    | none =>
      rw [ha] at hstep
      simp only [List.filterMap_cons, ha, hstep]
    | some t =>
      rw [ha] at hstep
      simp only [List.filterMap_cons, ha, hstep]
      cases hfm : rest.filterMap anchorTitleId with
      | nil => simp
      | cons y ys =>
        cases hz : (y :: ys).getLast? with
        | none => simp at hz
        | some z => simp [hz]

/-- C10: the `imdbId` returned by `extractRatings` is the `/title/` path
segment of the *last* accepted rating link that contains `/title/` —
later matches overwrite earlier ones — and is null when no accepted
rating link contains `/title/`. -/
theorem extractRatings_imdbId_last (panel : RatingsPanel) :
    (extractRatings panel).2 = (panel.anchors.filterMap anchorTitleId).getLast? := by
  unfold extractRatings
  have h := ratingFold_imdbId panel.anchors ([], none)
  cases hfm : (panel.anchors.filterMap anchorTitleId).getLast? with
  | none =>
    rw [hfm] at h
    cases panel.googleRatingText <;> simp [h]
  | some x =>
    rw [hfm] at h
    cases panel.googleRatingText <;> simp [h]

/-! ## Helper lemmas: validation -/

theorem jsValidate_ne_nan (x : Option JsNumber) : jsValidate x ≠ some JsNumber.nan := by
  cases x with
  | none => simp [jsValidate]
  | some n => cases n <;> simp [jsValidate]

/-- C7: both parsers return a result for every input rather than
throwing (they are total functions of the page model); every numeric
field of the result is a number or null — never `NaN` — and the `error`
field is null on every input, because only a whole-page parse exception
(unreachable for the modelled parse) would set it; markup-shape problems
only yield null fields. -/
theorem parsers_error_null_and_nan_free :
    (∀ (p : ImdbPage) (u : String),
      (parseImdbHtml p u).error = none ∧
      (parseImdbHtml p u).rating ≠ some JsNumber.nan ∧
      (parseImdbHtml p u).ratingCount ≠ some JsNumber.nan) ∧
    ∀ (q : RtPage) (u : String),
      (parseRottenTomatoesHtml q u).error = none ∧
      (∀ c, (parseRottenTomatoesHtml q u).critic = some c →
        c.score ≠ some JsNumber.nan ∧ c.ratingCount ≠ some JsNumber.nan) ∧
      ∀ a, (parseRottenTomatoesHtml q u).audience = some a →
        a.score ≠ some JsNumber.nan ∧ a.ratingCount ≠ some JsNumber.nan := by
  constructor
  · intro p u
    exact ⟨rfl, jsValidate_ne_nan _, jsValidate_ne_nan _⟩
  · intro q u
    refine ⟨rfl, ?_, ?_⟩
    · intro c hc
      have hcrit : (parseRottenTomatoesHtml q u).critic =
          if (rtCriticDataOf q).score.isSome || (rtCriticDataOf q).ratingCount.isSome
              || (rtCriticDataOf q).consensus.isSome then
            some (rtCriticDataOf q)
          else none := rfl
      rw [hcrit] at hc
      split at hc
      · cases hc
        exact ⟨jsValidate_ne_nan _, jsValidate_ne_nan _⟩
      · exact absurd hc (by simp)
    · intro a ha
      have haud : (parseRottenTomatoesHtml q u).audience =
          if (rtAudienceDataOf q).score.isSome || (rtAudienceDataOf q).ratingCount.isSome
              || (rtAudienceDataOf q).consensus.isSome then
            some (rtAudienceDataOf q)
          else none := rfl
      rw [haud] at ha
      split at ha
      · cases ha
        exact ⟨jsValidate_ne_nan _, jsValidate_ne_nan _⟩
      · exact absurd ha (by simp)

/-- Witness for C7: a concrete IMDb page and a concrete Rotten Tomatoes
page with a populated scorecard, with the critic and audience sub-object
hypotheses discharged by evaluation. -/
theorem parsers_error_null_and_nan_free_witness :
    ((parseImdbHtml ⟨[], "8.7", "1.2M"⟩ "u").error = none ∧
      (parseImdbHtml ⟨[], "8.7", "1.2M"⟩ "u").rating ≠ some JsNumber.nan) ∧
    (rtCriticDataOf ⟨[], some ⟨"75%", "100 Reviews", "80%", "2,000 Ratings",
        some "true", some "POSITIVE", some "75", none, none⟩, "", "", "", "", "", ""⟩).score ≠
        some JsNumber.nan ∧
    (rtAudienceDataOf ⟨[], some ⟨"75%", "100 Reviews", "80%", "2,000 Ratings",
        some "true", some "POSITIVE", some "75", none, none⟩, "", "", "", "", "", ""⟩).score ≠
        some JsNumber.nan := by
  refine ⟨⟨(parsers_error_null_and_nan_free.1 ⟨[], "8.7", "1.2M"⟩ "u").1,
    (parsers_error_null_and_nan_free.1 ⟨[], "8.7", "1.2M"⟩ "u").2.1⟩, ?_, ?_⟩
  · exact ((parsers_error_null_and_nan_free.2 ⟨[], some ⟨"75%", "100 Reviews", "80%",
      "2,000 Ratings", some "true", some "POSITIVE", some "75", none, none⟩,
      "", "", "", "", "", ""⟩ "u").2.1 _ (by decide)).1
  · exact ((parsers_error_null_and_nan_free.2 ⟨[], some ⟨"75%", "100 Reviews", "80%",
      "2,000 Ratings", some "true", some "POSITIVE", some "75", none, none⟩,
      "", "", "", "", "", ""⟩ "u").2.2 _ (by decide)).1

/-! ## C6: Rotten Tomatoes critic-score precedence -/

/-- C6 counterexample: a page whose JSON-LD pass finds all five tracked
values (critic 90/400, audience 85/1000, consensus) — which sets the
same flag the widget path would set — while the scorecard widget shows
75% but yields no sentiment attribute and no icon score.  The code
returns the widget's 75; the claimed precedence (widget only wins when
it yielded non-null certified and sentiment) requires the
structured-data 90. -/
theorem rtCriticScore_precedence_counterexample :
    rtCriticScoreOf (parseRottenTomatoesHtml
        ⟨[some ⟨true, some ⟨some "90", some "400"⟩, some ⟨"85", "1000"⟩, some "Great watch."⟩],
         some ⟨"75%", "400 Reviews", "85%", "1,000 Ratings", none, none, none, none, none⟩,
         "", "", "", "", "", ""⟩ "u") = some (JsNumber.num (jsInt 75)) ∧
    jsValidate (specCriticScoreClaimed
        (rtScorecardScan (some ⟨"75%", "400 Reviews", "85%", "1,000 Ratings",
          none, none, none, none, none⟩)).iconCriticScore
        (rtScorecardScan (some ⟨"75%", "400 Reviews", "85%", "1,000 Ratings",
          none, none, none, none, none⟩)).criticScore
        (rtJsonScan [some ⟨true, some ⟨some "90", some "400"⟩, some ⟨"85", "1000"⟩,
          some "Great watch."⟩] rtJsonInit).criticScore
        (rtScorecardScan (some ⟨"75%", "400 Reviews", "85%", "1,000 Ratings",
          none, none, none, none, none⟩)).widgetCertSent) = some (JsNumber.num (jsInt 90)) ∧
    JsNumber.num (jsInt 75) ≠ JsNumber.num (jsInt 90) := by
  refine ⟨by decide, by decide, by decide⟩

/-- C6 (amended): the critic score of the parse result follows the
precedence — icon-embedded score; else the scorecard-widget score when
the widget yielded non-null certified and sentiment values *or* the
JSON-LD pass had found critic score, critic review count, audience
score, audience review count and consensus all non-null; else the
structured-data score; else the scorecard-widget score — followed by the
`isNaN` validation. -/
theorem rtCriticScore_precedence (p : RtPage) (u : String) :
    rtCriticScoreOf (parseRottenTomatoesHtml p u) =
      jsValidate (specCriticScoreAmended
        (rtScorecardScan p.scorecard).iconCriticScore
        (rtScorecardScan p.scorecard).criticScore
        (rtJsonScan p.ldBlocks rtJsonInit).criticScore
        (rtScorecardScan p.scorecard).widgetCertSent
        (rtJsonScan p.ldBlocks rtJsonInit).complete) := by
  have hfs : rtFinalCriticScore p = specCriticScoreAmended
      (rtScorecardScan p.scorecard).iconCriticScore
      (rtScorecardScan p.scorecard).criticScore
      (rtJsonScan p.ldBlocks rtJsonInit).criticScore
      (rtScorecardScan p.scorecard).widgetCertSent
      (rtJsonScan p.ldBlocks rtJsonInit).complete := by
    unfold rtFinalCriticScore specCriticScoreAmended
    cases h : (rtJsonScan p.ldBlocks rtJsonInit).criticScore with
    | none => simp [h]
    | some v => simp [h]
  have hcrit : (parseRottenTomatoesHtml p u).critic =
      if (rtCriticDataOf p).score.isSome || (rtCriticDataOf p).ratingCount.isSome
          || (rtCriticDataOf p).consensus.isSome then
        some (rtCriticDataOf p)
      else none := rfl
  have hscore : (rtCriticDataOf p).score = jsValidate (rtFinalCriticScore p) := rfl
  unfold rtCriticScoreOf
  rw [hcrit]
  by_cases hc : ((rtCriticDataOf p).score.isSome || (rtCriticDataOf p).ratingCount.isSome
      || (rtCriticDataOf p).consensus.isSome) = true
  · rw [if_pos hc]
    rw [← hfs, ← hscore]
  · rw [if_neg hc]
    have hnone : (rtCriticDataOf p).score = none := by
      cases h : (rtCriticDataOf p).score with
      | none => rfl
      | some v =>
        exact absurd (by simp [h]) hc
    rw [← hfs, ← hscore, hnone]

/-! ## C5: IMDb count-suffix conversion -/

/-- C5 counterexample: the code tests `includes('M')` before
`includes('K')`, not suffixes; on the count text `"1.2MK"` — which ends
in `K` — the code yields 1,200,000 while the claimed K-suffix rule
yields 1,200. -/
theorem imdbFallbackCount_suffix_counterexample :
    (parseImdbHtml ⟨[], "", "1.2MK"⟩ "u").ratingCount = some (JsNumber.num (jsInt 1200000)) ∧
    jsEndsWith (jsToUpper (jsTrim "1.2MK")) "K" = true ∧
    specCountClaimed (jsToUpper (jsTrim "1.2MK")) = some (JsNumber.num (jsInt 1200)) ∧
    JsNumber.num (jsInt 1200000) ≠ JsNumber.num (jsInt 1200) :=
  ⟨by decide, by decide, by decide, by decide⟩

/-- C5 (amended): when the JSON-LD scan yields no rating count and the
trimmed count text is non-empty, the fallback interprets the upper-cased
text by substring containment — an `M` anywhere multiplies the parsed
digits-and-dots numeric part by 1e6 (rounded), else a `K` anywhere
multiplies it by 1e3 (rounded), else the plain digits are parsed — with
`M` taking precedence over `K`; and the four examples hold: "1.2M" →
1200000, "850K" → 850000, "2.1M" → 2100000, "534" → 534. -/
theorem imdbFallbackCount_contains_spec :
    (∀ (p : ImdbPage) (u : String), (imdbScanBlocks p.ldBlocks none none).2 = none →
      jsToUpper (jsTrim p.ratingCountStr) ≠ "" →
      ∀ q : ℚ, jsParseFloat (stripNonDigitDot (jsToUpper (jsTrim p.ratingCountStr))) = JsNumber.num q →
      (parseImdbHtml p u).ratingCount =
        if jsIncludes (jsToUpper (jsTrim p.ratingCountStr)) "M" = true then
          some (JsNumber.num (jsRound (qMul q (jsInt 1000000))))
        else if jsIncludes (jsToUpper (jsTrim p.ratingCountStr)) "K" = true then
          some (JsNumber.num (jsRound (qMul q (jsInt 1000))))
        else jsValidate (some (jsParseInt10 (stripNonDigit (jsToUpper (jsTrim p.ratingCountStr)))))) ∧
    (parseImdbHtml ⟨[], "", "1.2M"⟩ "u").ratingCount = some (JsNumber.num (jsInt 1200000)) ∧
    (parseImdbHtml ⟨[], "", "850K"⟩ "u").ratingCount = some (JsNumber.num (jsInt 850000)) ∧
    (parseImdbHtml ⟨[], "", "2.1M"⟩ "u").ratingCount = some (JsNumber.num (jsInt 2100000)) ∧
    (parseImdbHtml ⟨[], "", "534"⟩ "u").ratingCount = some (JsNumber.num (jsInt 534)) := by
  refine ⟨?_, by decide, by decide, by decide, by decide⟩
  intro p u hscan ht q hq
  have hrc : (parseImdbHtml p u).ratingCount =
      jsValidate (if (imdbScanBlocks p.ldBlocks none none).2 = none ∧
          jsToUpper (jsTrim p.ratingCountStr) ≠ "" then
        imdbFallbackCount (jsToUpper (jsTrim p.ratingCountStr)) (imdbScanBlocks p.ldBlocks none none).2
      else (imdbScanBlocks p.ldBlocks none none).2) := rfl
  rw [hrc, hscan, if_pos ⟨rfl, ht⟩]
  unfold imdbFallbackCount
  rw [hq]
  by_cases hM : jsIncludes (jsToUpper (jsTrim p.ratingCountStr)) "M" = true
  · simp [hM, jsValidate]
  · simp only [Bool.not_eq_true] at hM
    by_cases hK : jsIncludes (jsToUpper (jsTrim p.ratingCountStr)) "K" = true
    · simp [hM, hK, jsValidate]
    · simp only [Bool.not_eq_true] at hK
      simp [hM, hK]

/-- Witness for C5 at the count text `" 1.2m "` (exercising the trim and
upper-case steps), with the JSON-scan, non-emptiness and parseability
hypotheses discharged by evaluation. -/
theorem imdbFallbackCount_contains_spec_witness :
    (parseImdbHtml ⟨[], "", " 1.2m "⟩ "u").ratingCount = some (JsNumber.num (jsInt 1200000)) := by
  rw [imdbFallbackCount_contains_spec.1 ⟨[], "", " 1.2m "⟩ "u" (by decide) (by decide)
    (mkRat 6 5) (by decide)]
  decide

/-! ## C4: IMDb structured-data precedence -/

theorem imdbScanBlocks_skip (pre : List (Option ImdbLd)) (L : List (Option ImdbLd))
    (r c : Option JsNumber) (hpre : ∀ x ∈ pre, imdbBlockTyped x = false) :
    imdbScanBlocks (pre ++ L) r c = imdbScanBlocks L r c := by
  induction pre with
  | nil => rfl
  | cons x rest ih =>
    have hx := hpre x (List.mem_cons_self x rest)
    have hrest : ∀ y ∈ rest, imdbBlockTyped y = false := fun y hy =>
      hpre y (List.mem_cons_of_mem x hy)
    cases x with
    | none =>
      show imdbScanBlocks (rest ++ L) r c = _
      exact ih hrest
    | some b =>
      have hx' : (b.typeOk && b.agg.isSome) = false := by simpa [imdbBlockTyped] using hx
      cases hty : b.typeOk with
      | false =>
        have hstep : imdbScanBlocks (some b :: (rest ++ L)) r c = imdbScanBlocks (rest ++ L) r c := by
          simp [imdbScanBlocks, hty]
        exact hstep.trans (ih hrest)
      | true =>
        have hagg : b.agg = none := by
          rw [hty, Bool.true_and] at hx'
          exact Option.not_isSome_iff_eq_none.mp (by simp [hx'])
        have hstep : imdbScanBlocks (some b :: (rest ++ L)) r c = imdbScanBlocks (rest ++ L) r c := by
          simp [imdbScanBlocks, hty, hagg]
        exact hstep.trans (ih hrest)

/-- C4 counterexample: the page's third JSON-LD block is well-formed
with both a parseable rating (9) and count (200), yet the parse result
is (7, 50) — the rating from the second block and the count from the
first — because the loop accumulates fields across typed blocks and
exits as soon as both are non-null, before ever reading the well-formed
block. -/
theorem parseImdbHtml_block_values_counterexample :
    imdbBlockCarriesBoth (some ⟨true, some ⟨some "9", some "200"⟩⟩) = true ∧
    (parseImdbHtml ⟨[some ⟨true, some ⟨none, some "50"⟩⟩, some ⟨true, some ⟨some "7", none⟩⟩,
        some ⟨true, some ⟨some "9", some "200"⟩⟩], "", ""⟩ "u") =
      ⟨some (JsNumber.num (jsInt 7)), some (JsNumber.num (jsInt 50)), "u", none⟩ ∧
    jsParseFloat "9" = JsNumber.num (jsInt 9) ∧
    jsParseInt10 "200" = JsNumber.num (jsInt 200) ∧
    JsNumber.num (jsInt 7) ≠ JsNumber.num (jsInt 9) ∧
    JsNumber.num (jsInt 50) ≠ JsNumber.num (jsInt 200) :=
  ⟨by decide, by decide, by decide, by decide, by decide, by decide⟩

/-- C4 (amended): when the *first* Movie/TVSeries block carrying an
`aggregateRating` has both a truthy, parseable rating value and rating
count, `parseImdbHtml` returns exactly those two values, stops scanning
(later blocks cannot change the result), and never consults the
DOM-selector fallback (the result is independent of the two selector
texts). -/
theorem parseImdbHtml_first_typed_block (pre rest : List (Option ImdbLd)) (b : ImdbLd)
    (agg : ImdbAgg) (v c : String) (qv qc : ℚ) (rs rcs u : String)
    (hpre : ∀ x ∈ pre, imdbBlockTyped x = false)
    (hty : b.typeOk = true) (hagg : b.agg = some agg)
    (hv : agg.ratingValue = some v) (hc : agg.ratingCount = some c)
    (hqv : jsParseFloat v = JsNumber.num qv) (hqc : jsParseInt10 c = JsNumber.num qc) :
    parseImdbHtml ⟨pre ++ some b :: rest, rs, rcs⟩ u =
      { rating := some (JsNumber.num qv), ratingCount := some (JsNumber.num qc),
        sourceUrl := u, error := none } := by
  have hscan : imdbScanBlocks (pre ++ some b :: rest) none none =
      (some (JsNumber.num qv), some (JsNumber.num qc)) := by
    rw [imdbScanBlocks_skip pre _ none none hpre]
    simp [imdbScanBlocks, hty, hagg, hv, hc, hqv, hqc]
  simp [parseImdbHtml, hscan, jsValidate]

/-- Witness for C4 at a page whose first typed block (after a malformed
block and a non-movie block) carries `8.7` and `1234567`, followed by a
further typed block and non-empty selector texts that must all be
ignored. -/
theorem parseImdbHtml_first_typed_block_witness :
    parseImdbHtml ⟨[none, some ⟨false, some ⟨some "1", some "2"⟩⟩,
        some ⟨true, some ⟨some "8.7", some "1234567"⟩⟩,
        some ⟨true, some ⟨some "1", some "1"⟩⟩], "9.9", "42"⟩ "u" =
      { rating := some (JsNumber.num (mkRat 87 10)),
        ratingCount := some (JsNumber.num (jsInt 1234567)),
        sourceUrl := "u", error := none } :=
  parseImdbHtml_first_typed_block [none, some ⟨false, some ⟨some "1", some "2"⟩⟩]
    [some ⟨true, some ⟨some "1", some "1"⟩⟩] ⟨true, some ⟨some "8.7", some "1234567"⟩⟩
    ⟨some "8.7", some "1234567"⟩ "8.7" "1234567" (mkRat 87 10) (jsInt 1234567) "9.9" "42" "u"
    (by decide) rfl rfl rfl rfl (by decide) (by decide)

/-! ## C8: `scrapeRatings` per-source independence -/

/-- C8: a source that is not supplied (null or empty) yields `none` for
its slot; a supplied source whose fetch fails yields that source's
result shape with every data field null and a source-prefixed error
message; and each source's slot is a function of that source's inputs
only — the other source's identifier and fetch outcome never affect
it. -/
theorem scrapeRatings_per_source :
    (∀ (imdbId rtUrl : Option String) f g, optTruthy imdbId = false →
      (scrapeRatings imdbId rtUrl f g).imdb = none) ∧
    (∀ (imdbId rtUrl : Option String) f g, optTruthy rtUrl = false →
      (scrapeRatings imdbId rtUrl f g).rottenTomatoes = none) ∧
    (∀ (imdbId rtUrl : Option String) g msg, optTruthy imdbId = true →
      (scrapeRatings imdbId rtUrl (Except.error msg) g).imdb =
        some { rating := none, ratingCount := none, sourceUrl := imdbUrlOf (imdbId.getD ""),
               error := some ("IMDb scrape failed: " ++ msg) }) ∧
    (∀ (imdbId rtUrl : Option String) f msg, optTruthy rtUrl = true →
      (scrapeRatings imdbId rtUrl f (Except.error msg)).rottenTomatoes =
        some { critic := none, audience := none, sourceUrl := rtUrl.getD "",
               error := some ("Rotten Tomatoes scrape failed: " ++ msg) }) ∧
    (∀ (imdbId rtUrl rtUrl' : Option String) f g g',
      (scrapeRatings imdbId rtUrl f g).imdb = (scrapeRatings imdbId rtUrl' f g').imdb) ∧
    ∀ (imdbId imdbId' rtUrl : Option String) f f' g,
      (scrapeRatings imdbId rtUrl f g).rottenTomatoes =
        (scrapeRatings imdbId' rtUrl f' g).rottenTomatoes := by
  refine ⟨?_, ?_, ?_, ?_, ?_, ?_⟩
  · intro imdbId rtUrl f g h
    simp [scrapeRatings, h]
  · intro imdbId rtUrl f g h
    simp [scrapeRatings, h]
  · intro imdbId rtUrl g msg h
    simp [scrapeRatings, h]
  · intro imdbId rtUrl f msg h
    simp [scrapeRatings, h]
  · intro imdbId rtUrl rtUrl' f g g'
    simp [scrapeRatings]
  · intro imdbId imdbId' rtUrl f f' g
    simp [scrapeRatings]

/-- Witness for C8: one call with no IMDb id and a failing Rotten
Tomatoes fetch, one with a failing IMDb fetch, and the independence
equations at differing counterpart inputs. -/
theorem scrapeRatings_per_source_witness :
    (scrapeRatings none (some "https://rt.example/m") (Except.error "boom")
        (Except.error "ETIMEDOUT")).imdb = none ∧
    (scrapeRatings none (some "https://rt.example/m") (Except.error "boom")
        (Except.error "ETIMEDOUT")).rottenTomatoes =
      some { critic := none, audience := none, sourceUrl := "https://rt.example/m",
             error := some ("Rotten Tomatoes scrape failed: " ++ "ETIMEDOUT") } ∧
    (scrapeRatings (some "tt0111161") none (Except.error "HTTP 503") (Except.ok
        ⟨[], none, "", "", "", "", "", ""⟩)).imdb =
      some { rating := none, ratingCount := none, sourceUrl := imdbUrlOf "tt0111161",
             error := some ("IMDb scrape failed: " ++ "HTTP 503") } ∧
    (scrapeRatings (some "tt1") (some "u1") (Except.error "a") (Except.error "b")).imdb =
      (scrapeRatings (some "tt1") (some "u2") (Except.error "a") (Except.ok
        ⟨[], none, "", "", "", "", "", ""⟩)).imdb :=
  ⟨scrapeRatings_per_source.1 none (some "https://rt.example/m") (Except.error "boom")
      (Except.error "ETIMEDOUT") (by decide),
   scrapeRatings_per_source.2.2.2.1 none (some "https://rt.example/m") (Except.error "boom")
      "ETIMEDOUT" (by decide),
   scrapeRatings_per_source.2.2.1 (some "tt0111161") none
      (Except.ok ⟨[], none, "", "", "", "", "", ""⟩) "HTTP 503" (by decide),
   scrapeRatings_per_source.2.2.2.2.1 (some "tt1") (some "u1") (some "u2") (Except.error "a")
      (Except.error "b") (Except.ok ⟨[], none, "", "", "", "", "", ""⟩)⟩

/-! ## C9: price normalization and its application sites -/

theorem replaceFirstList_of_not_contains (pat repl : List Char) :
    ∀ cs : List Char, listContainsSub pat cs = false → replaceFirstList pat repl cs = cs := by
  intro cs
  induction cs with
  | nil => intro _; rfl
  | cons c rest ih =>
    intro h
    unfold listContainsSub at h
    rw [Bool.or_eq_false_iff] at h
    simp [replaceFirstList, h.1, ih h.2]

/-- C9 counterexample: `priceMapper` removes the *first* occurrence of
`.00` anywhere, not a trailing one: on `"$1.005"`, which does not end in
`.00`, the claimed rule returns the string unchanged while the code
returns `"$15"`. -/
theorem priceMapper_trailing_counterexample :
    priceMapper "$1.005" = "$15" ∧
    jsEndsWith "$1.005" ".00" = false ∧
    specPriceMapperClaimed "$1.005" = "$1.005" ∧
    "$15" ≠ "$1.005" :=
  ⟨by decide, by decide, by decide, by decide⟩

/-- C9 (amended): `priceMapper` maps a string containing `free`
case-insensitively to `Free`; otherwise it removes the *first*
occurrence of the substring `.00` wherever it sits (so strings without
`.00` pass through unchanged); and normalization is applied exactly to
the secondary and fallback sources, while every primary-source option
carries its row's raw price text. -/
theorem priceMapper_application_spec :
    (∀ s, jsIncludes (jsToLower s) "free" = true → priceMapper s = "Free") ∧
    (∀ s, jsIncludes (jsToLower s) "free" = false → jsIncludes s ".00" = false →
      priceMapper s = s) ∧
    (∀ s, s ≠ "" → jsIncludes (jsToLower s) "free" = false →
      priceMapper s = jsReplaceFirst s ".00" "") ∧
    (∀ panel, ∀ o ∈ extractWatchOptionsFromPrimarySource panel,
      ∃ r ∈ panel.container.getD [],
        o.price = if optTruthy r.priceText then r.priceText else none) ∧
    (∀ panel, ∀ o ∈ extractWatchOptionsFromSecondarySource panel,
      ∃ raw, o.price = some (priceMapper raw)) ∧
    ∀ panel, ∀ o ∈ extractWatchOptionsFromFallbackSource panel,
      o.price = none ∨ ∃ raw, o.price = some (priceMapper raw) := by
  refine ⟨?_, ?_, ?_, ?_, ?_, ?_⟩
  · intro s h
    by_cases hs : s = ""
    · subst hs
      exact absurd h (by decide)
    · simp [priceMapper, hs, h]
  · intro s hfree h00
    by_cases hs : s = ""
    · subst hs
      rfl
    · rw [show priceMapper s = jsReplaceFirst s ".00" "" from by simp [priceMapper, hs, hfree]]
      show (⟨replaceFirstList ".00".toList [] s.toList⟩ : String) = s
      rw [replaceFirstList_of_not_contains ".00".toList [] s.toList h00]
      rfl
  · intro s hs hfree
    simp [priceMapper, hs, hfree]
  · intro panel o ho
    unfold extractWatchOptionsFromPrimarySource at ho
    by_cases hx : panel.expandClickTarget
    · rw [if_neg (by simp [hx])] at ho
      cases hcont : panel.container with
      | none =>
        rw [hcont] at ho
        simp at ho
      | some rows =>
        rw [hcont] at ho
        obtain ⟨r, hr, heq⟩ := List.mem_filterMap.mp ho
        refine ⟨r, by simp [hcont, hr], ?_⟩
        obtain ⟨hf, nt, pt⟩ := r
        cases hf with
        | none => simp at heq
        | some link =>
          cases nt with
          | none => simp at heq
          | some name =>
            dsimp only at heq ⊢
            by_cases hg : link ≠ "" ∧ name ≠ ""
            · rw [if_pos hg] at heq
              cases heq
              rfl
            · rw [if_neg hg] at heq
              simp at heq
    · rw [if_pos (by simp [hx])] at ho
      simp at ho
  · intro panel o ho
    unfold extractWatchOptionsFromSecondarySource at ho
    by_cases hx : panel.panelPresent
    · rw [if_neg (by simp [hx])] at ho
      obtain ⟨r, _, heq⟩ := List.mem_filterMap.mp ho
      obtain ⟨hf, nt, p1, p2⟩ := r
      cases hf with
      | none => simp at heq
      | some link =>
        dsimp only at heq
        by_cases hg : link ≠ ""
        · rw [if_pos hg] at heq
          cases heq
          exact ⟨_, rfl⟩
        · rw [if_neg hg] at heq
          simp at heq
    · rw [if_pos (by simp [hx])] at ho
      simp at ho
  · intro panel o ho
    unfold extractWatchOptionsFromFallbackSource at ho
    cases panel with
    | none => simp at ho
    | some r =>
      obtain ⟨hf, st, ut⟩ := r
      cases hf with
      | none => simp at ho
      | some link =>
        dsimp only at ho
        by_cases hl : link = ""
        · rw [if_pos hl] at ho
          simp at ho
        · rw [if_neg hl] at ho
          cases hst : st with
          | some t =>
            rw [hst] at ho
            cases t with
            | some pt =>
              by_cases hp : pt ≠ ""
              · simp only [List.mem_singleton, if_pos hp] at ho
                subst ho
                exact Or.inr ⟨pt, rfl⟩
              · simp only [List.mem_singleton, if_neg hp] at ho
                subst ho
                exact Or.inl rfl
            | none =>
              simp only [List.mem_singleton] at ho
              subst ho
              exact Or.inl rfl
          | none =>
            rw [hst] at ho
            cases ut with
            | some t =>
              cases t with
              | some pt =>
                by_cases hp : pt ≠ ""
                · simp only [List.mem_singleton, if_pos hp] at ho
                  subst ho
                  exact Or.inr ⟨pt, rfl⟩
                · simp only [List.mem_singleton, if_neg hp] at ho
                  subst ho
                  exact Or.inl rfl
              | none =>
                simp only [List.mem_singleton] at ho
                subst ho
                exact Or.inl rfl
            | none =>
              simp only [List.mem_singleton] at ho
              subst ho
              exact Or.inl rfl

/-- Witness for C9: concrete price strings for the three pointwise
rules, a primary row whose raw price text survives unmapped, and a
secondary row whose stored price comes from `priceMapper`. -/
theorem priceMapper_application_spec_witness :
    priceMapper "Includes FREE trial" = "Free" ∧
    priceMapper "$19.99" = "$19.99" ∧
    priceMapper "$1.005" = jsReplaceFirst "$1.005" ".00" "" ∧
    (∃ r ∈ (some [(⟨some "https://x.tv/a", some "XTV", some "$4.00"⟩ : PrimaryRow)] :
        Option (List PrimaryRow)).getD [],
      (⟨"https://x.tv/a", "XTV", some "$4.00"⟩ : WatchOption).price =
        if optTruthy r.priceText then r.priceText else none) ∧
    ∃ raw, (⟨"https://y.tv/b", "YTV", some (priceMapper "$4.00")⟩ : WatchOption).price =
      some (priceMapper raw) :=
  ⟨priceMapper_application_spec.1 "Includes FREE trial" (by decide),
   priceMapper_application_spec.2.1 "$19.99" (by decide) (by decide),
   priceMapper_application_spec.2.2.1 "$1.005" (by decide) (by decide),
   priceMapper_application_spec.2.2.2.1 ⟨true, some [⟨some "https://x.tv/a", some "XTV", some "$4.00"⟩]⟩
     ⟨"https://x.tv/a", "XTV", some "$4.00"⟩ (by decide),
   priceMapper_application_spec.2.2.2.2.1 ⟨true, [⟨some "https://y.tv/b", some "YTV",
     some (some "$4.00"), none⟩]⟩ ⟨"https://y.tv/b", "YTV", some (priceMapper "$4.00")⟩ (by decide)⟩

/-! ## C2: handler resource discipline (code bug) -/

/-- C2: the browser session initialized during a handler call is *never*
closed by the handler — the inner session's open/closed state at return
always equals whether it was launched — and in particular a successful
request returns 200 with the launched browser still open.  The `finally`
block (line 647) closes the outer scraper declared at line 602, whose
`browser` is null, because the inner `const scraper` of line 621 is
scoped to the `try` block. -/
theorem googleHandler_leaks_session :
    (∀ env : GKHandlerEnv,
      (googleHandler env).innerOpenAtReturn = (googleHandler env).innerLaunched) ∧
    googleHandler ⟨true, some "tron legacy watch options", true, true, true⟩ =
      { statusCode := 200, innerLaunched := true, innerOpenAtReturn := true,
        outerOpenAtReturn := false } := by
  constructor
  · intro env
    unfold googleHandler scraperClose
    by_cases h1 : env.parseOk
    · by_cases h2 : optTruthy env.searchString
      · by_cases h3 : env.initOk
        · by_cases h4 : env.scrapeOk
          · simp [h1, h2, h3, h4]
          · simp [h1, h2, h3, h4]
        · simp [h1, h2, h3]
      · simp [h1, h2]
    · simp [h1]
  · decide

/-! ## C3: bounded bot-detection retry -/

/-- C3: one logical `scrape` call (entered with `retryCount = 0`) never
exceeds `MAX_RETRIES` (3) page-load attempts; every retry closes the
session, waits exactly the fixed `RETRY_DELAY` (5000 ms) cooldown and
re-initializes once — one `rotateProxy` call and one fingerprint setup
per retry — before one further attempt; and the call either succeeds or
fails with the terminal bot-detection-limit error after exactly
`MAX_RETRIES` attempts, retrying no further. -/
theorem scrapeModel_bounded_retry (detect : Nat → Bool) :
    (scrapeModel detect).attempts ≤ MAX_RETRIES ∧
    (scrapeModel detect).closes = (scrapeModel detect).reinits ∧
    (scrapeModel detect).proxyRotationCalls = (scrapeModel detect).reinits ∧
    (scrapeModel detect).fingerprintSetups = (scrapeModel detect).reinits ∧
    (scrapeModel detect).delays = List.replicate (scrapeModel detect).reinits RETRY_DELAY ∧
    (scrapeModel detect).attempts = (scrapeModel detect).reinits + 1 ∧
    ((scrapeModel detect).result = Except.ok () ∨
      ((scrapeModel detect).result =
          Except.error "Bot detection limit reached after multiple retries" ∧
        (scrapeModel detect).attempts = MAX_RETRIES)) := by
  cases h0 : detect 0 <;> cases h1 : detect 1 <;> cases h2 : detect 2 <;>
    simp [scrapeModel, scrapeAttempts, MAX_RETRIES, RETRY_DELAY, h0, h1, h2]

end MovieBrowser
